import Mathlib

/- Shallow embedding of the agentic code executor repository:
   the planner dependency graph (planner.py), the tool registry
   (tools.py), the orchestration loop (executor.py) and the code
   sandbox (sandbox.py), together with theorems settling the
   specification claims. -/

namespace AgenticExec

/-- Substring test, modelling the Python `in` operator on strings:
some position of the haystack starts with the needle. -/
def strContains (hay pat : String) : Bool :=
  (List.range (hay.length + 1)).any (fun i => pat.data.isPrefixOf (hay.data.drop i))

/-- ASCII lower-casing of one character; models Python str.lower on
the ASCII range, which covers every string this code lowers. -/
def asciiLower (c : Char) : Char :=
  if ('A' ≤ c ∧ c ≤ 'Z') then Char.ofNat (c.toNat + 32) else c

/-- Models Python str.lower. -/
def strLower (s : String) : String := String.mk (s.data.map asciiLower)

/-- Models Python str.startswith. -/
def strStartsWith (s pat : String) : Bool := pat.data.isPrefixOf s.data

/-- Split a character list at a separator, modelling Python str.split
with a one-character separator string. -/
def splitOnSep (sep : Char) : List Char → List (List Char)
  | [] => [[]]
  | c :: rest =>
    let r := splitOnSep sep rest
    if c = sep then [] :: r
    else
      match r with
      | [] => [[c]]
      | h :: t => (c :: h) :: t

/-- Models the expression params.get("path", "").split("/")[-1] of
planner.py: the last slash-separated segment of a string. -/
def lastPathSegment (s : String) : String :=
  String.mk ((splitOnSep '/' s.data).getLastD [])

/-- Models Python dict.get with a default; the parameter and context
dictionaries are rendered as association lists with distinct keys. -/
def lookupD (kvs : List (String × String)) (k d : String) : String :=
  match kvs.find? (fun kv => decide (kv.1 = k)) with
  | some kv => kv.2
  | none => d

/-- planner.py StepStatus. -/
inductive StepStatus
  | pending
  | running
  | completed
  | failed
  | skipped
  deriving DecidableEq

/-- planner.py PlanStep. -/
structure PlanStep where
  id : String
  tool : String
  params : List (String × String)
  description : String
  depends_on : List String := []
  status : StepStatus := StepStatus.pending
  result : Option String := none
  error : Option String := none
  retry_count : Nat := 0
  max_retries : Nat := 2
  deriving DecidableEq

/-- PlanStep.can_retry. -/
def can_retry (s : PlanStep) : Bool := decide (s.retry_count < s.max_retries)

/-- planner.py ExecutionPlan. -/
structure ExecutionPlan where
  task : String
  steps : List PlanStep := []
  metadata : List (String × String) := []
  deriving DecidableEq

/-- ExecutionPlan.add_step: appends a step with the next id; the
functional rendering returns the extended plan and the new step. -/
def add_step (p : ExecutionPlan) (tool : String) (params : List (String × String))
    (description : String) (depends_on : List String) : ExecutionPlan × PlanStep :=
  let step : PlanStep :=
    { id := "step_" ++ toString (p.steps.length + 1), tool := tool, params := params,
      description := description, depends_on := depends_on }
  ({ p with steps := p.steps ++ [step] }, step)

/-- ExecutionPlan.get_step: the first step with the given id. -/
def get_step (p : ExecutionPlan) (sid : String) : Option PlanStep :=
  p.steps.find? (fun s => decide (s.id = sid))

/-- The inner dependency loop of get_ready_steps: every dependency id
must resolve via get_step to a completed step. -/
def deps_met (p : ExecutionPlan) (deps : List String) : Bool :=
  deps.all (fun d =>
    match get_step p d with
    | some dep => decide (dep.status = StepStatus.completed)
    | none => false)

/-- ExecutionPlan.get_ready_steps. -/
def get_ready_steps (p : ExecutionPlan) : List PlanStep :=
  p.steps.filter (fun s => decide (s.status = StepStatus.pending) && deps_met p s.depends_on)

/-- The terminal statuses tested by ExecutionPlan.is_complete. -/
def statusTerminal (st : StepStatus) : Bool :=
  decide (st = StepStatus.completed) || decide (st = StepStatus.failed)
    || decide (st = StepStatus.skipped)

/-- ExecutionPlan.is_complete. -/
def is_complete (p : ExecutionPlan) : Bool := p.steps.all (fun s => statusTerminal s.status)

/-- TaskPlanner.plan: keyword dispatch on the lowered task text that
builds the initial plan (planner.py lines 156-267).  A missing Python
context and an empty context dictionary both make every helper take
its default, so the context is rendered as one association list. -/
def plannerPlan (task : String) (context : List (String × String)) : ExecutionPlan :=
  let plan0 : ExecutionPlan := { task := task, steps := [], metadata := context }
  let tl := strLower task
  if strContains tl "read" && strContains tl "file" then
    let path := lookupD context "path" "unknown"
    (add_step plan0 "file_read" [("path", path)] ("Read file: " ++ path) []).1
  else if strContains tl "write" || strContains tl "create" then
    let path := lookupD context "path" "output.txt"
    let content := lookupD context "content" ""
    (add_step plan0 "file_write" [("path", path), ("content", content)]
      ("Write to file: " ++ path) []).1
  else if strContains tl "search" || strContains tl "find" then
    let pattern := lookupD context "pattern" "TODO"
    (add_step plan0 "search" [("pattern", pattern)] ("Search for pattern: " ++ pattern) []).1
  else if strContains tl "test" || strContains tl "pytest" then
    let cmd := lookupD context "command" "pytest"
    (add_step plan0 "shell" [("command", cmd)] "Run tests" []).1
  else if strContains tl "install" then
    let package := lookupD context "package" ""
    (add_step plan0 "shell" [("command", "pip install " ++ package)]
      ("Install package: " ++ package) []).1
  else if strContains tl "git" || strContains tl "commit" then
    let message := lookupD context "message" "Update"
    let pr1 := add_step plan0 "shell" [("command", "git add -A")] "Stage changes" []
    (add_step pr1.1 "shell" [("command", "git commit -m \"" ++ message ++ "\"")]
      "Create commit" [pr1.2.id]).1
  else if strContains tl "refactor" || strContains tl "rename" then
    let old_name := lookupD context "old_name" ""
    let new_name := lookupD context "new_name" ""
    let pr1 := add_step plan0 "search" [("pattern", old_name)]
      ("Find occurrences of: " ++ old_name) []
    (add_step pr1.1 "shell"
      [("command", "sed -i \x27s/" ++ old_name ++ "/" ++ new_name ++ "/g\x27 *.py")]
      ("Replace " ++ old_name ++ " with " ++ new_name) [pr1.2.id]).1
  else
    let command := lookupD context "command" task
    (add_step plan0 "shell" [("command", command)] ("Execute: " ++ command) []).1

/-- TaskPlanner.replan_on_failure (planner.py lines 269-309).  The
Python version mutates the failed step through its alias inside the
plan; the functional rendering returns the updated plan together with
the id of the step to re-attempt (none when no recovery exists). -/
def replan_on_failure (plan : ExecutionPlan) (failed : PlanStep) (error : String) :
    ExecutionPlan × Option String :=
  if can_retry failed then
    let failed' : PlanStep :=
      { failed with retry_count := failed.retry_count + 1, status := StepStatus.pending }
    ({ plan with steps := plan.steps.map (fun s => if s.id = failed.id then failed' else s) },
      some failed.id)
  else if strContains (strLower error) "not found" && decide (failed.tool = "file_read") then
    let filename := lastPathSegment (lookupD failed.params "path" "")
    let pr := add_step plan "search" [("pattern", filename), ("file_pattern", "*")]
      ("Search for file: " ++ filename) []
    (pr.1, some pr.2.id)
  else if strContains (strLower error) "permission denied" then
    if decide (failed.tool = "shell") then
      let cmd := lookupD failed.params "command" ""
      if strStartsWith cmd "sudo" then (plan, none)
      else
        let pr := add_step plan "shell" [("command", "sudo " ++ cmd)]
          ("Retry with sudo: " ++ cmd) []
        (pr.1, some pr.2.id)
    else (plan, none)
  else (plan, none)

/-- tools.py ToolStatus. -/
inductive ToolStatus
  | success
  | error
  | timeout
  | permission_denied
  deriving DecidableEq

/-- tools.py ToolResult. -/
structure ToolResult where
  status : ToolStatus
  output : String
  error : Option String := none
  metadata : List (String × String) := []
  deriving DecidableEq

/-- tools.py ToolParameter.  The source also carries a default value
consumed only inside the tool bodies, which this embedding abstracts
as the dispatch oracle, so that field is not represented. -/
structure ToolParameter where
  name : String
  param_type : String
  description : String
  required : Bool := true
  deriving DecidableEq

/-- The declarative surface of a tools.py Tool: name, description and
parameter schema.  The effectful execute body is abstracted as the
oracle passed to registryExecute. -/
structure ToolSpec where
  name : String
  description : String
  parameters : List ToolParameter
  deriving DecidableEq

/-- Tool.validate_params: the first required parameter missing from
the keyword arguments produces the error message. -/
def validate_params (ps : List ToolParameter) (kwargs : List (String × String)) :
    Option String :=
  match ps.find? (fun p => p.required && !(kwargs.any (fun kv => decide (kv.1 = p.name)))) with
  | some p => some ("Missing required parameter: " ++ p.name)
  | none => none

/-- FileReadTool: name, description and parameter schema. -/
def fileReadSpec : ToolSpec :=
  { name := "file_read"
    description := "Read the contents of a file at the given path. Returns the file content as a string."
    parameters :=
      [ { name := "path", param_type := "string", description := "Path to the file to read" },
        { name := "encoding", param_type := "string", description := "File encoding",
          required := false } ] }

/-- FileWriteTool: name, description and parameter schema. -/
def fileWriteSpec : ToolSpec :=
  { name := "file_write"
    description := "Write content to a file at the given path. Creates the file if it doesn't exist."
    parameters :=
      [ { name := "path", param_type := "string", description := "Path to the file to write" },
        { name := "content", param_type := "string",
          description := "Content to write to the file" },
        { name := "mode", param_type := "string",
          description := "Write mode: \x27overwrite\x27 or \x27append\x27",
          required := false } ] }

/-- ShellTool: name, description and parameter schema. -/
def shellSpec : ToolSpec :=
  { name := "shell"
    description := "Execute a shell command and return its output. Use for running tests, installing packages, git operations, etc."
    parameters :=
      [ { name := "command", param_type := "string", description := "Shell command to execute" },
        { name := "timeout", param_type := "integer", description := "Timeout in seconds",
          required := false } ] }

/-- SearchTool: name, description and parameter schema. -/
def searchSpec : ToolSpec :=
  { name := "search"
    description := "Search for a pattern in files. Returns matching lines with file paths and line numbers."
    parameters :=
      [ { name := "pattern", param_type := "string", description := "Regex pattern to search for" },
        { name := "file_pattern", param_type := "string",
          description := "Glob pattern for files to search", required := false },
        { name := "max_results", param_type := "integer",
          description := "Maximum number of results", required := false } ] }

/-- ToolRegistry.default_registry: the four registered tools. -/
def defaultRegistry : List ToolSpec :=
  [fileReadSpec, fileWriteSpec, shellSpec, searchSpec]

/-- ToolRegistry.get over the default registry; the registry
dictionary keyed by unique names is rendered as a first-match search
over the insertion-ordered list. -/
def registryGet (name : String) : Option ToolSpec :=
  defaultRegistry.find? (fun t => decide (t.name = name))

/-- ToolRegistry.execute (tools.py lines 409-419): unknown tools and
validation failures report an error before the tool body runs; only a
validated call reaches the oracle standing for the tool body. -/
def registryExecute (oracle : String → List (String × String) → ToolResult)
    (tool_name : String) (kwargs : List (String × String)) : ToolResult :=
  match registryGet tool_name with
  | none => { status := ToolStatus.error, output := "", error := some ("Unknown tool: " ++ tool_name) }
  | some t =>
    match validate_params t.parameters kwargs with
    | some msg => { status := ToolStatus.error, output := "", error := some msg }
    | none => oracle tool_name kwargs

/-- executor.py ExecutionStep: the record of one dispatched step.
The wall-clock start and end stamps are ambient measurements outside
the embedding and are not represented. -/
structure ExecutionStepRec where
  step_id : String
  tool : String
  params : List (String × String)
  result : Option ToolResult := none
  retries : Nat := 0
  deriving DecidableEq

/-- executor.py ExecutionResult.  The plan stored in the metadata
mapping is kept as the finalPlan field; iterations mirrors the
iterations entry of the metadata; total_time is an ambient wall-clock
measurement and is not represented. -/
structure ExecutionResult where
  task : String
  success : Bool
  steps : List ExecutionStepRec := []
  error : Option String := none
  iterations : Nat := 0
  finalPlan : ExecutionPlan
  deriving DecidableEq

/-- Replace the step with the given id, modelling a field assignment
through the aliased step object of the Python plan. -/
def updateStep (p : ExecutionPlan) (sid : String) (f : PlanStep → PlanStep) : ExecutionPlan :=
  { p with steps := p.steps.map (fun s => if s.id = sid then f s else s) }

/-- One pass of the inner loop body of AgenticExecutor.execute
(executor.py lines 158-177) together with _execute_step: mark the
step running, dispatch it, and on failure consult
replan_on_failure, marking the step failed only when no recovery
step is returned.  The source passes the raw result.error value to
replan_on_failure; a missing message reaches the pattern checks here
as the empty string. -/
def processStep (dispatch : String → List (String × String) → ToolResult)
    (plan : ExecutionPlan) (sid : String) : ExecutionPlan × ExecutionStepRec :=
  match plan.steps.find? (fun s => decide (s.id = sid)) with
  | none => (plan, { step_id := sid, tool := "", params := [] })
  | some st =>
    let plan1 := updateStep plan sid (fun s => { s with status := StepStatus.running })
    let res := dispatch st.tool st.params
    let rec0 : ExecutionStepRec :=
      { step_id := st.id, tool := st.tool, params := st.params, result := some res,
        retries := st.retry_count }
    if res.status = ToolStatus.success then
      (updateStep plan1 sid
        (fun s => { s with status := StepStatus.completed, result := some res.output }), rec0)
    else
      let st1 : PlanStep := { st with status := StepStatus.running }
      let pr := replan_on_failure plan1 st1 (res.error.getD "")
      match pr.2 with
      | some _ => (pr.1, rec0)
      | none =>
        (updateStep pr.1 sid
          (fun s => { s with status := StepStatus.failed, error := res.error }), rec0)

/-- The for loop over the snapshot of ready steps inside one while
iteration of AgenticExecutor.execute. -/
def runReady (dispatch : String → List (String × String) → ToolResult) :
    List String → ExecutionPlan × List ExecutionStepRec → ExecutionPlan × List ExecutionStepRec
  | [], pr => pr
  | sid :: rest, (p, rs) =>
    let pr := processStep dispatch p sid
    runReady dispatch rest (pr.1, rs ++ [pr.2])

/-- The while loop of AgenticExecutor.execute (executor.py lines
148-177), with the remaining allowance of iterations (max_steps minus
the iterations already taken) as structural fuel. -/
def loopAux (dispatch : String → List (String × String) → ToolResult) :
    Nat → ExecutionPlan → List ExecutionStepRec → Nat →
      ExecutionPlan × List ExecutionStepRec × Nat
  | 0, plan, recs, iteration => (plan, recs, iteration)
  | fuel + 1, plan, recs, iteration =>
    if is_complete plan then (plan, recs, iteration)
    else
      let ready := (get_ready_steps plan).map (fun s => s.id)
      if ready.isEmpty then (plan, recs, iteration + 1)
      else
        let pr := runReady dispatch ready (plan, recs)
        loopAux dispatch fuel pr.1 pr.2 (iteration + 1)

/-- The overall-success aggregation of AgenticExecutor.execute:
every step of the final plan is completed. -/
def overallSuccess (p : ExecutionPlan) : Bool :=
  p.steps.all (fun s => decide (s.status = StepStatus.completed))

/-- The first-failure aggregation of AgenticExecutor.execute: the
error of the first failed step in plan order, if any. -/
def firstFailureError (p : ExecutionPlan) : Option String :=
  match p.steps.find? (fun s => decide (s.status = StepStatus.failed)) with
  | some s => s.error
  | none => none

/-- The orchestration loop of AgenticExecutor.execute applied to an
already-built plan, including the final success and first-failure
aggregation (executor.py lines 146-200). -/
def runPlanLoop (dispatch : String → List (String × String) → ToolResult)
    (maxSteps : Nat) (plan : ExecutionPlan) : ExecutionResult :=
  let t := loopAux dispatch maxSteps plan [] 0
  let finalPlan := t.1
  { task := plan.task, success := overallSuccess finalPlan, steps := t.2.1,
    error := if overallSuccess finalPlan then none else firstFailureError finalPlan,
    iterations := t.2.2, finalPlan := finalPlan }

/-- AgenticExecutor.execute: plan the task, then drive the plan with
the orchestration loop. -/
def executeTask (dispatch : String → List (String × String) → ToolResult)
    (maxSteps : Nat) (task : String) (context : List (String × String)) : ExecutionResult :=
  runPlanLoop dispatch maxSteps (plannerPlan task context)

/-- sandbox.py SandboxStatus. -/
inductive SandboxStatus
  | ready
  | running
  | completed
  | timeout
  | error
  | memory_exceeded
  deriving DecidableEq

/-- sandbox.py SandboxConfig with its default values.  The
allowed_imports option is accepted but never consulted by the source,
and the working_dir and cleanup_on_exit options only steer the
scratch-directory setup and teardown that the effect list below
abstracts. -/
structure SandboxConfig where
  timeout_seconds : Nat := 30
  max_memory_mb : Nat := 256
  max_output_bytes : Nat := 1048576
  allowed_imports : Option (List String) := none
  blocked_imports : List String :=
    ["os.system", "subprocess", "socket", "requests",
     "urllib", "ftplib", "telnetlib", "smtplib"]
  working_dir : Option String := none
  cleanup_on_exit : Bool := true
  deriving DecidableEq

/-- sandbox.py SandboxResult.  Elapsed times are rational stand-ins
for the measured floating-point durations; the fields that the source
leaves at their defaults stay zero here as well. -/
structure SandboxResult where
  status : SandboxStatus
  stdout : String
  stderr : String
  return_value : Option String := none
  execution_time : ℚ := 0
  memory_used_mb : ℚ := 0
  deriving DecidableEq

/-- CodeSandbox._check_imports: the first configured marker occurring
in the code text produces the diagnostic. -/
def check_imports (cfg : SandboxConfig) (code : String) : Option String :=
  match cfg.blocked_imports.find? (fun b => strContains code b) with
  | some b => some ("Blocked import detected: " ++ b)
  | none => none

/-- Outcome of writing the wrapper script, abstracting the filesystem
interaction of CodeSandbox.execute. -/
inductive WriteOutcome
  | ok
  | failure (msg : String)
  deriving DecidableEq

/-- Outcome of the spawned process, abstracting subprocess.run: a
normal exit with captured streams and elapsed time, expiry of the
wall-clock timeout carrying the discarded partial streams, or an
unexpected exception. -/
inductive RunOutcome
  | finished (returncode : Int) (stdout stderr : String) (elapsed : ℚ)
  | timedOut (partialStdout partialStderr : String)
  | raised (msg : String) (elapsed : ℚ)
  deriving DecidableEq

/-- The structured payload the wrapper script prints on its standard
output (a mapping with stdout, stderr and error fields). -/
structure ParsedOutput where
  stdout : String
  stderr : String
  error : Option String
  deriving DecidableEq

/-- Observable side effects of one CodeSandbox.execute call: creating
the scratch directory, writing the wrapper script, and spawning the
process. -/
inductive SbEffect
  | setupDir
  | wroteScript
  | spawnedProcess
  deriving DecidableEq

/-- The output truncation of CodeSandbox.execute: streams longer than
the configured ceiling are cut and marked. -/
def truncateOut (maxB : Nat) (s : String) : String :=
  if s.length > maxB then String.mk (s.data.take maxB) ++ "\n[OUTPUT TRUNCATED]" else s

/-- CodeSandbox.execute (sandbox.py lines 158-248) for a freshly
acquired sandbox, parameterised by the script-write outcome, the
process outcome and the JSON decoding of the wrapper payload, and
returning the result together with the effects performed. -/
def sandboxExecute (cfg : SandboxConfig) (code : String) (write : WriteOutcome)
    (run : RunOutcome) (parse : String → Option ParsedOutput) :
    SandboxResult × List SbEffect :=
  match check_imports cfg code with
  | some msg => ({ status := SandboxStatus.error, stdout := "", stderr := msg }, [])
  | none =>
    match write with
    | WriteOutcome.failure e =>
      ({ status := SandboxStatus.error, stdout := "",
         stderr := "Failed to write script: " ++ e }, [SbEffect.setupDir])
    | WriteOutcome.ok =>
      match run with
      | RunOutcome.timedOut _ _ =>
        ({ status := SandboxStatus.timeout, stdout := "",
           stderr := "Execution timed out after " ++ toString cfg.timeout_seconds ++ "s",
           execution_time := (cfg.timeout_seconds : ℚ) },
         [SbEffect.setupDir, SbEffect.wroteScript, SbEffect.spawnedProcess])
      | RunOutcome.raised msg elapsed =>
        ({ status := SandboxStatus.error, stdout := "", stderr := msg,
           execution_time := elapsed },
         [SbEffect.setupDir, SbEffect.wroteScript, SbEffect.spawnedProcess])
      | RunOutcome.finished rc out err elapsed =>
        let streams :=
          match parse out with
          | some o => (o.stdout, o.stderr ++ o.error.getD "")
          | none => (out, err)
        let stdout := truncateOut cfg.max_output_bytes streams.1
        let stderr := truncateOut cfg.max_output_bytes streams.2
        ({ status := if rc = 0 then SandboxStatus.completed else SandboxStatus.error,
           stdout := stdout, stderr := stderr, execution_time := elapsed },
         [SbEffect.setupDir, SbEffect.wroteScript, SbEffect.spawnedProcess])

section Lemmas

/-- The first element of a concatenation satisfying the predicate is
found when the prefix contains no hit. -/
lemma find?_first {α : Type} (p : α → Bool) (l₁ : List α) (s : α) (l₂ : List α)
    (h₁ : ∀ t ∈ l₁, p t = false) (hs : p s = true) :
    (l₁ ++ s :: l₂).find? p = some s := by
  induction l₁ with
  | nil => simp [List.find?_cons_of_pos, hs]
  | cons a as ih =>
    have ha : p a = false := h₁ a (by simp)
    rw [List.cons_append, List.find?_cons_of_neg _ (by simp [ha])]
    exact ih (fun t ht => h₁ t (by simp [ht]))

/-- A hit found in the first list is the hit of the concatenation. -/
lemma find?_append_left {α : Type} (p : α → Bool) {l₁ : List α} (l₂ : List α) {a : α}
    (h : l₁.find? p = some a) : (l₁ ++ l₂).find? p = some a := by
  induction l₁ with
  | nil => simp at h
  | cons b bs ih =>
    rw [List.cons_append]
    cases hb : p b with
    | true =>
      rw [List.find?_cons_of_pos _ hb] at h ⊢
      exact h
    | false =>
      rw [List.find?_cons_of_neg _ (by simp [hb])] at h ⊢
      exact ih h

/-- A list containing an element satisfying the predicate yields a
hit for find?. -/
lemma exists_find?_some {α : Type} (p : α → Bool) {l : List α} {b : α}
    (hb : b ∈ l) (hp : p b = true) : ∃ c, l.find? p = some c := by
  induction l with
  | nil => simp at hb
  | cons a as ih =>
    cases ha : p a with
    | true => exact ⟨a, List.find?_cons_of_pos _ ha⟩
    | false =>
      rcases List.mem_cons.mp hb with rfl | hb
      · rw [ha] at hp; exact absurd hp (by simp)
      · obtain ⟨c, hc⟩ := ih hb
        exact ⟨c, by rw [List.find?_cons_of_neg _ (by simp [ha])]; exact hc⟩

/-- Updating the step with a given id through an id-preserving field
assignment moves the first hit of the id search through the map. -/
lemma find?_map_update (l : List PlanStep) (sid : String) (f : PlanStep → PlanStep)
    (hid : ∀ s, (f s).id = s.id) (st : PlanStep)
    (h : l.find? (fun s => decide (s.id = sid)) = some st) :
    (l.map (fun s => if s.id = sid then f s else s)).find? (fun s => decide (s.id = sid))
      = some (f st) := by
  induction l with
  | nil => simp at h
  | cons a as ih =>
    by_cases ha : a.id = sid
    · rw [List.find?_cons_of_pos _ (by simp [ha])] at h
      cases h
      rw [List.map_cons, if_pos ha]
      exact List.find?_cons_of_pos _ (by simp [hid, ha])
    · rw [List.find?_cons_of_neg _ (by simp [ha])] at h
      rw [List.map_cons, if_neg ha]
      rw [List.find?_cons_of_neg _ (by simp [ha])]
      exact ih h

/-- The dependency loop of get_ready_steps succeeds exactly when every
dependency id resolves to a completed step. -/
lemma deps_met_iff (p : ExecutionPlan) (deps : List String) :
    deps_met p deps = true ↔
      ∀ d ∈ deps, ∃ dep, get_step p d = some dep ∧ dep.status = StepStatus.completed := by
  rw [deps_met, List.all_eq_true]
  constructor
  · intro h d hd
    have hx := h d hd
    cases hg : get_step p d with
    | none => rw [hg] at hx; simp at hx
    | some dep =>
      rw [hg] at hx
      simp only [decide_eq_true_eq] at hx
      exact ⟨dep, rfl, hx⟩
  · intro h d hd
    obtain ⟨dep, hg, hc⟩ := h d hd
    rw [hg]
    simp [hc]

end Lemmas

/-- Claim C1: for every plan, a step appears in get_ready_steps
exactly when its status is pending and every id in its depends_on
list resolves via get_step to a completed step, and the qualifying
steps are returned in insertion order (the returned sequence is a
sublist of the plan's step list). -/
theorem c1_ready_steps (p : ExecutionPlan) (s : PlanStep) :
    (s ∈ get_ready_steps p ↔
      s ∈ p.steps ∧ s.status = StepStatus.pending ∧
        ∀ d ∈ s.depends_on,
          ∃ dep, get_step p d = some dep ∧ dep.status = StepStatus.completed)
    ∧ (get_ready_steps p).Sublist p.steps := by
  constructor
  · rw [get_ready_steps, List.mem_filter]
    simp only [Bool.and_eq_true, decide_eq_true_eq]
    rw [deps_met_iff]
  · exact List.filter_sublist _

/-- Claim C8: is_complete holds exactly when every step's status is
completed, failed or skipped. -/
theorem c8_is_complete_iff (p : ExecutionPlan) :
    is_complete p = true ↔
      ∀ s ∈ p.steps, s.status = StepStatus.completed ∨ s.status = StepStatus.failed
        ∨ s.status = StepStatus.skipped := by
  rw [is_complete, List.all_eq_true]
  constructor <;> intro h s hs <;> have hx := h s hs <;>
    simp only [statusTerminal, Bool.or_eq_true, decide_eq_true_eq] at hx ⊢ <;> tauto

/-- Claim C10: a plan with zero steps is vacuously complete, has no
ready steps, and the orchestration loop over it performs zero
iterations, records no executed steps, and reports success with no
error. -/
theorem c10_empty_plan (dispatch : String → List (String × String) → ToolResult)
    (ms : Nat) (task : String) (meta : List (String × String)) :
    is_complete { task := task, steps := [], metadata := meta } = true
    ∧ get_ready_steps { task := task, steps := [], metadata := meta } = []
    ∧ (runPlanLoop dispatch ms ⟨task, [], meta⟩).success = true
    ∧ (runPlanLoop dispatch ms ⟨task, [], meta⟩).iterations = 0
    ∧ (runPlanLoop dispatch ms ⟨task, [], meta⟩).steps = []
    ∧ (runPlanLoop dispatch ms ⟨task, [], meta⟩).error = none := by
  have hloop : loopAux dispatch ms ⟨task, [], meta⟩ [] 0 = (⟨task, [], meta⟩, [], 0) := by
    cases ms with
    | zero => rfl
    | succ n => simp [loopAux, is_complete]
  refine ⟨rfl, rfl, ?_, ?_, ?_, ?_⟩ <;>
    simp [runPlanLoop, hloop, is_complete, overallSuccess, firstFailureError]

/-- The retry invariant: no step of the plan has spent more retries
than its ceiling allows. -/
def retryBounded (p : ExecutionPlan) : Prop :=
  ∀ s ∈ p.steps, s.retry_count ≤ s.max_retries

section RetryBound

lemma rb_add_step (p : ExecutionPlan) (tool : String) (params : List (String × String))
    (description : String) (depends_on : List String) (h : retryBounded p) :
    retryBounded (add_step p tool params description depends_on).1 := by
  intro s hs
  simp only [add_step, List.mem_append, List.mem_singleton] at hs
  rcases hs with hs | rfl
  · exact h s hs
  · simp

lemma rb_updateStep (p : ExecutionPlan) (sid : String) (f : PlanStep → PlanStep)
    (hf : ∀ s, (f s).retry_count = s.retry_count ∧ (f s).max_retries = s.max_retries)
    (h : retryBounded p) : retryBounded (updateStep p sid f) := by
  intro s hs
  simp only [updateStep, List.mem_map] at hs
  obtain ⟨t, ht, rfl⟩ := hs
  by_cases hid : t.id = sid
  · rw [if_pos hid, (hf t).1, (hf t).2]
    exact h t ht
  · rw [if_neg hid]
    exact h t ht

lemma rb_replan (p : ExecutionPlan) (failed : PlanStep) (err : String)
    (h : retryBounded p) : retryBounded (replan_on_failure p failed err).1 := by
  unfold replan_on_failure
  split_ifs with h1 h2 h3 h4
  · intro s hs
    simp only [List.mem_map] at hs
    obtain ⟨t, ht, rfl⟩ := hs
    by_cases hid : t.id = failed.id
    · rw [if_pos hid]
      have : failed.retry_count < failed.max_retries := by
        rw [can_retry, decide_eq_true_eq] at h1
        exact h1
      exact this
    · rw [if_neg hid]
      exact h t ht
  · exact rb_add_step _ _ _ _ _ h
  · dsimp only
    split_ifs with h5
    · exact h
    · exact rb_add_step _ _ _ _ _ h
  · exact h
  · exact h

lemma rb_processStep (dispatch : String → List (String × String) → ToolResult)
    (p : ExecutionPlan) (sid : String) (h : retryBounded p) :
    retryBounded (processStep dispatch p sid).1 := by
  unfold processStep
  cases hf : p.steps.find? (fun s => decide (s.id = sid)) with
  | none => exact h
  | some st =>
    simp only
    have h1 : retryBounded (updateStep p sid (fun s => { s with status := StepStatus.running })) :=
      rb_updateStep _ _ _ (fun s => ⟨rfl, rfl⟩) h
    split_ifs with hs1
    · exact rb_updateStep _ _ _ (fun s => ⟨rfl, rfl⟩) h1
    · have h2 : retryBounded
          (replan_on_failure (updateStep p sid (fun s => { s with status := StepStatus.running }))
            { st with status := StepStatus.running }
            ((dispatch st.tool st.params).error.getD "")).1 :=
        rb_replan _ _ _ h1
      cases hm : (replan_on_failure
          (updateStep p sid (fun s => { s with status := StepStatus.running }))
          { st with status := StepStatus.running }
          ((dispatch st.tool st.params).error.getD "")).2 with
      | none =>
        simp only [hm]
        exact rb_updateStep _ _ _ (fun s => ⟨rfl, rfl⟩) h2
      | some rid =>
        simp only [hm]
        exact h2

lemma rb_runReady (dispatch : String → List (String × String) → ToolResult)
    (ids : List String) :
    ∀ pr : ExecutionPlan × List ExecutionStepRec, retryBounded pr.1 →
      retryBounded (runReady dispatch ids pr).1 := by
  induction ids with
  | nil =>
    intro pr h
    cases pr
    exact h
  | cons sid rest ih =>
    intro pr h
    cases pr with
    | mk p rs =>
      simp only [runReady]
      exact ih _ (rb_processStep _ _ _ h)

lemma rb_loopAux (dispatch : String → List (String × String) → ToolResult) :
    ∀ (fuel : Nat) (plan : ExecutionPlan) (recs : List ExecutionStepRec) (iter : Nat),
      retryBounded plan → retryBounded (loopAux dispatch fuel plan recs iter).1 := by
  intro fuel
  induction fuel with
  | zero => intro plan recs iter h; exact h
  | succ n ih =>
    intro plan recs iter h
    simp only [loopAux]
    split_ifs with h1 h2
    · exact h
    · exact h
    · exact ih _ _ _ (rb_runReady _ _ _ h)

lemma rb_plannerPlan (task : String) (ctx : List (String × String)) :
    retryBounded (plannerPlan task ctx) := by
  have h0 : retryBounded { task := task, steps := [], metadata := ctx } := by
    intro s hs
    simp at hs
  simp only [plannerPlan]
  split_ifs <;>
    first
      | exact rb_add_step _ _ _ _ _ h0
      | exact rb_add_step _ _ _ _ _ (rb_add_step _ _ _ _ _ h0)

end RetryBound

/-- Claim C3: a failed step whose retry counter is strictly below its
ceiling is returned by replan_on_failure itself for re-attempt, with
the counter incremented, the status reset to pending, and every other
field unchanged; and every step of any plan driven end to end by the
executor keeps its retry counter at or below its ceiling. -/
theorem c3_retry_and_bound (plan : ExecutionPlan) (failed : PlanStep) (err : String)
    (dispatch : String → List (String × String) → ToolResult) (ms : Nat)
    (task : String) (ctx : List (String × String)) :
    (can_retry failed = true →
      (replan_on_failure plan failed err).2 = some failed.id ∧
      ∃ r : PlanStep,
        (replan_on_failure plan failed err).1.steps
            = plan.steps.map (fun s => if s.id = failed.id then r else s)
          ∧ r.id = failed.id ∧ r.tool = failed.tool ∧ r.params = failed.params
          ∧ r.description = failed.description ∧ r.depends_on = failed.depends_on
          ∧ r.result = failed.result ∧ r.error = failed.error
          ∧ r.max_retries = failed.max_retries
          ∧ r.status = StepStatus.pending
          ∧ r.retry_count = failed.retry_count + 1)
    ∧ ∀ s ∈ (executeTask dispatch ms task ctx).finalPlan.steps,
        s.retry_count ≤ s.max_retries := by
  constructor
  · intro h
    constructor
    · simp [replan_on_failure, h]
    · use { failed with retry_count := failed.retry_count + 1, status := StepStatus.pending }
      refine ⟨?_, rfl, rfl, rfl, rfl, rfl, rfl, rfl, rfl, rfl, rfl⟩
      simp [replan_on_failure, h]
  · exact rb_loopAux dispatch ms (plannerPlan task ctx) [] 0 (rb_plannerPlan task ctx)

/-- A pending shell step used to instantiate claim C3. -/
def c3Step : PlanStep :=
  { id := "step_1", tool := "shell", params := [("command", "ls")], description := "List files" }

/-- A one-step plan used to instantiate claim C3. -/
def c3Plan : ExecutionPlan := { task := "t", steps := [c3Step] }

/-- A dispatch oracle whose every call succeeds. -/
def dispatchOk : String → List (String × String) → ToolResult :=
  fun _ _ => { status := ToolStatus.success, output := "ok" }

/-- Witness for claim C3 at a concrete plan, step and task. -/
theorem c3_witness :
    (replan_on_failure c3Plan c3Step "boom").2 = some "step_1"
    ∧ ({ id := "step_1", tool := "shell", params := [("command", "x")],
          description := "Execute: x", depends_on := [], status := StepStatus.completed,
          result := some "ok", error := none, retry_count := 0,
          max_retries := 2 } : PlanStep).retry_count ≤ 2 := by
  constructor
  · exact ((c3_retry_and_bound c3Plan c3Step "boom" dispatchOk 50 "x" []).1 (by decide)).1
  · exact (c3_retry_and_bound c3Plan c3Step "boom" dispatchOk 50 "x" []).2 _ (by decide)

section NotFound

/-- Closed form of the not-found recovery branch of
replan_on_failure for a retries-exhausted file_read step. -/
lemma replan_notfound (plan : ExecutionPlan) (failed : PlanStep) (err : String)
    (hcr : can_retry failed = false)
    (hnf : strContains (strLower err) "not found" = true)
    (htool : failed.tool = "file_read") :
    replan_on_failure plan failed err =
      ((add_step plan "search"
          [("pattern", lastPathSegment (lookupD failed.params "path" "")),
           ("file_pattern", "*")]
          ("Search for file: " ++ lastPathSegment (lookupD failed.params "path" "")) []).1,
       some ("step_" ++ toString (plan.steps.length + 1))) := by
  simp [replan_on_failure, hcr, hnf, htool, add_step]

end NotFound

/-- Claim C2 counterexample input: a dispatch oracle whose file_read
calls fail with a not-found error while every other tool succeeds. -/
def dispatchFileMissing : String → List (String × String) → ToolResult :=
  fun tool _ =>
    if tool = "file_read" then
      { status := ToolStatus.error, output := "",
        error := some "File not found: missing.txt" }
    else { status := ToolStatus.success, output := "ok" }

/-- Claim C2 counterexample: driving the planned read-file task
against a persistently missing file leaves the original failed step
with status running after the loop finishes, and running is not a
terminal status — contradicting the claim that the failed step ends
in a terminal status. -/
theorem c2_counterexample :
    (get_step (executeTask dispatchFileMissing 50 "read file data"
        [("path", "missing.txt")]).finalPlan "step_1").map PlanStep.status
      = some StepStatus.running
    ∧ statusTerminal StepStatus.running = false
    ∧ (executeTask dispatchFileMissing 50 "read file data"
        [("path", "missing.txt")]).finalPlan.steps.map PlanStep.tool
      = ["file_read", "search"] := by
  constructor
  · decide
  constructor
  · decide
  · decide

/-- Claim C2 as amended: when a retries-exhausted step fails with a
not-found error and its tool is file_read, the loop body appends
exactly one new search step with an empty depends_on list and no edge
to the failed step, and leaves the original failed step in status
running — a non-terminal status — because the loop marks a step
failed only when no recovery step is returned. -/
theorem c2_amended (dispatch : String → List (String × String) → ToolResult)
    (plan : ExecutionPlan) (sid : String) (st : PlanStep) (e : String)
    (hfind : plan.steps.find? (fun s => decide (s.id = sid)) = some st)
    (hst : ¬ (dispatch st.tool st.params).status = ToolStatus.success)
    (herr : (dispatch st.tool st.params).error = some e)
    (hnf : strContains (strLower e) "not found" = true)
    (htool : st.tool = "file_read")
    (hcr : can_retry st = false) :
    ∃ ns : PlanStep,
      (processStep dispatch plan sid).1.steps
          = (updateStep plan sid (fun s => { s with status := StepStatus.running })).steps
            ++ [ns]
        ∧ ns.tool = "search" ∧ ns.depends_on = []
        ∧ (processStep dispatch plan sid).1.steps.length = plan.steps.length + 1
        ∧ get_step (processStep dispatch plan sid).1 sid
            = some { st with status := StepStatus.running }
        ∧ statusTerminal StepStatus.running = false := by
  have hcr1 : can_retry { st with status := StepStatus.running } = false := hcr
  have htool1 : ({ st with status := StepStatus.running } : PlanStep).tool = "file_read" := htool
  have herr1 : (dispatch st.tool st.params).error.getD "" = e := by rw [herr]; rfl
  have hrepl := replan_notfound
    (updateStep plan sid (fun s => { s with status := StepStatus.running }))
    { st with status := StepStatus.running } e hcr1 hnf htool1
  have hps : (processStep dispatch plan sid).1 =
      (add_step (updateStep plan sid (fun s => { s with status := StepStatus.running }))
        "search"
        [("pattern", lastPathSegment (lookupD st.params "path" "")),
         ("file_pattern", "*")]
        ("Search for file: " ++ lastPathSegment (lookupD st.params "path" "")) []).1 := by
    simp only [processStep, hfind, if_neg hst, herr1, hrepl]
  refine ⟨(add_step (updateStep plan sid (fun s => { s with status := StepStatus.running }))
      "search"
      [("pattern", lastPathSegment (lookupD st.params "path" "")), ("file_pattern", "*")]
      ("Search for file: " ++ lastPathSegment (lookupD st.params "path" "")) []).2,
    ?_, rfl, rfl, ?_, ?_, rfl⟩
  · rw [hps]
    rfl
  · rw [hps]
    simp [add_step, updateStep]
  · rw [hps]
    have hfind1 : (updateStep plan sid
        (fun s => { s with status := StepStatus.running })).steps.find?
          (fun s => decide (s.id = sid)) = some { st with status := StepStatus.running } := by
      simp only [updateStep]
      exact find?_map_update plan.steps sid
        (fun s => { s with status := StepStatus.running }) (fun s => rfl) st hfind
    rw [get_step, add_step]
    exact find?_append_left _ _ hfind1

/-- Claim C2 witness input: a file_read step that has exhausted its
retries. -/
def c2Step : PlanStep :=
  { id := "step_1"
    tool := "file_read"
    params := [("path", "a/missing.txt")]
    description := "Read file: a/missing.txt"
    retry_count := 2 }

/-- Claim C2 witness input: the one-step plan around c2Step. -/
def c2Plan : ExecutionPlan := { task := "read file data", steps := [c2Step] }

/-- Witness for the amended claim C2 at a concrete plan and dispatch
oracle. -/
theorem c2_witness :
    (processStep dispatchFileMissing c2Plan "step_1").1.steps.length
        = c2Plan.steps.length + 1
    ∧ get_step (processStep dispatchFileMissing c2Plan "step_1").1 "step_1"
        = some { c2Step with status := StepStatus.running }
    ∧ statusTerminal StepStatus.running = false := by
  obtain ⟨ns, h1, h2, h3, h4, h5, h6⟩ :=
    c2_amended dispatchFileMissing c2Plan "step_1" c2Step "File not found: missing.txt"
      (by decide) (by decide) (by decide) (by decide) (by decide) (by decide)
  exact ⟨h4, h5, h6⟩

/-- Claim C4 counterexample input: a step naming an unregistered
tool. -/
def c4Step : PlanStep :=
  { id := "step_1"
    tool := "frobnicate"
    params := []
    description := "Call an unregistered tool" }

/-- Claim C4 counterexample input: the one-step plan around c4Step. -/
def c4Plan : ExecutionPlan := { task := "t", steps := [c4Step] }

/-- Claim C4 counterexample: a step failing with a validation error
(unknown tool) and retries remaining is returned by replan_on_failure
for re-attempt — its status is reset to pending and its counter
incremented — contradicting the claim that validation errors are
never retried automatically. -/
theorem c4_counterexample :
    registryExecute dispatchOk "frobnicate" []
        = { status := ToolStatus.error, output := "",
            error := some "Unknown tool: frobnicate" }
    ∧ (replan_on_failure c4Plan c4Step "Unknown tool: frobnicate").2 = some "step_1"
    ∧ (replan_on_failure c4Plan c4Step "Unknown tool: frobnicate").1.steps.map
        (fun s => (s.status, s.retry_count)) = [(StepStatus.pending, 1)] := by
  refine ⟨by decide, by decide, by decide⟩

/-- Claim C4 as amended: validation failures (unknown tool, missing
required parameter) are reported synchronously as an error status at
dispatch time, before any tool body runs; but the recovery path does
retry them automatically — replan_on_failure returns any failed step
for re-attempt while its retry counter is below its ceiling,
regardless of the error category. -/
theorem c4_amended (oracle : String → List (String × String) → ToolResult)
    (tool_name : String) (kwargs : List (String × String))
    (plan : ExecutionPlan) (failed : PlanStep) (err : String) :
    (registryGet tool_name = none →
      registryExecute oracle tool_name kwargs
        = { status := ToolStatus.error, output := "",
            error := some ("Unknown tool: " ++ tool_name) })
    ∧ (∀ spec msg, registryGet tool_name = some spec →
        validate_params spec.parameters kwargs = some msg →
        registryExecute oracle tool_name kwargs
          = { status := ToolStatus.error, output := "", error := some msg })
    ∧ (∀ (ps : List ToolParameter) (q : ToolParameter),
        ps.find? (fun r => r.required && !(kwargs.any (fun kv => decide (kv.1 = r.name))))
            = some q →
        validate_params ps kwargs = some ("Missing required parameter: " ++ q.name))
    ∧ (can_retry failed = true → (replan_on_failure plan failed err).2 = some failed.id) := by
  refine ⟨?_, ?_, ?_, ?_⟩
  · intro h
    simp [registryExecute, h]
  · intro spec msg hget hval
    simp [registryExecute, hget, hval]
  · intro ps q hq
    simp [validate_params, hq]
  · intro h
    simp [replan_on_failure, h]

/-- Witness for the amended claim C4 at concrete dispatches and a
concrete failed step. -/
theorem c4_witness :
    registryExecute dispatchOk "frobnicate" []
        = { status := ToolStatus.error, output := "",
            error := some ("Unknown tool: " ++ "frobnicate") }
    ∧ registryExecute dispatchOk "file_read" []
        = { status := ToolStatus.error, output := "",
            error := some "Missing required parameter: path" }
    ∧ validate_params fileReadSpec.parameters []
        = some ("Missing required parameter: "
            ++ ({ name := "path", param_type := "string",
                  description := "Path to the file to read" } : ToolParameter).name)
    ∧ (replan_on_failure c4Plan c4Step "Unknown tool: frobnicate").2 = some c4Step.id := by
  refine ⟨?_, ?_, ?_, ?_⟩
  · exact (c4_amended dispatchOk "frobnicate" [] c4Plan c4Step "e").1 (by decide)
  · exact (c4_amended dispatchOk "file_read" [] c4Plan c4Step "e").2.1 fileReadSpec
      "Missing required parameter: path" (by decide) (by decide)
  · exact (c4_amended dispatchOk "file_read" [] c4Plan c4Step "e").2.2.1
      fileReadSpec.parameters
      { name := "path", param_type := "string", description := "Path to the file to read" }
      (by decide)
  · exact (c4_amended dispatchOk "frobnicate" [] c4Plan c4Step
      "Unknown tool: frobnicate").2.2.2 (by decide)

section Sudo

/-- A command prefixed with sudo starts with sudo. -/
lemma sudo_prefix_starts (cmd : String) : strStartsWith ("sudo " ++ cmd) "sudo" = true := by
  cases cmd with
  | mk l => rfl

end Sudo

/-- Claim C9: for a retries-exhausted failure, the permission-denied
recovery appends one sudo-escalated shell step exactly when the
failed step is a shell step whose command does not already start with
sudo; sudo-prefixed shell steps get no second escalation (so a
failure chain escalates at most once); and non-shell steps never
produce an escalated retry step — at most a search step from the
not-found branch. -/
theorem c9_escalation (plan : ExecutionPlan) (failed : PlanStep) (err : String)
    (hcr : can_retry failed = false) :
    (failed.tool = "shell" →
      strContains (strLower err) "permission denied" = true →
      strStartsWith (lookupD failed.params "command" "") "sudo" = false →
      ∃ ns : PlanStep,
        (replan_on_failure plan failed err).1.steps = plan.steps ++ [ns]
          ∧ (replan_on_failure plan failed err).2 = some ns.id
          ∧ ns.id = "step_" ++ toString (plan.steps.length + 1)
          ∧ ns.tool = "shell"
          ∧ lookupD ns.params "command" ""
              = "sudo " ++ lookupD failed.params "command" ""
          ∧ strStartsWith (lookupD ns.params "command" "") "sudo" = true
          ∧ ns.depends_on = [])
    ∧ (failed.tool ≠ "shell" →
        ((replan_on_failure plan failed err).1.steps = plan.steps
            ∧ (replan_on_failure plan failed err).2 = none)
        ∨ ∃ ns : PlanStep,
            (replan_on_failure plan failed err).1.steps = plan.steps ++ [ns]
              ∧ ns.tool = "search")
    ∧ (failed.tool = "shell" →
        strStartsWith (lookupD failed.params "command" "") "sudo" = true →
        replan_on_failure plan failed err = (plan, none)) := by
  refine ⟨?_, ?_, ?_⟩
  · intro htool hperm hsudo
    have hb2 : (strContains (strLower err) "not found"
        && decide (failed.tool = "file_read")) = false := by
      simp [htool]
    refine ⟨(add_step plan "shell"
        [("command", "sudo " ++ lookupD failed.params "command" "")]
        ("Retry with sudo: " ++ lookupD failed.params "command" "") []).2, ?_, ?_, rfl, rfl,
      ?_, ?_, rfl⟩
    · simp [replan_on_failure, hcr, hb2, hperm, htool, hsudo, add_step]
    · simp [replan_on_failure, hcr, hb2, hperm, htool, hsudo, add_step]
    · simp [add_step, lookupD]
    · rw [show lookupD (add_step plan "shell"
          [("command", "sudo " ++ lookupD failed.params "command" "")]
          ("Retry with sudo: " ++ lookupD failed.params "command" "") []).2.params
          "command" "" = "sudo " ++ lookupD failed.params "command" "" by
        simp [add_step, lookupD]]
      exact sudo_prefix_starts _
  · intro htool
    by_cases hb2 : (strContains (strLower err) "not found"
        && decide (failed.tool = "file_read")) = true
    · right
      refine ⟨(add_step plan "search"
          [("pattern", lastPathSegment (lookupD failed.params "path" "")),
           ("file_pattern", "*")]
          ("Search for file: " ++ lastPathSegment (lookupD failed.params "path" "")) []).2,
        ?_, rfl⟩
      simp [replan_on_failure, hcr, hb2, add_step]
    · left
      rw [Bool.not_eq_true] at hb2
      by_cases hperm : strContains (strLower err) "permission denied" = true
      · constructor <;> simp [replan_on_failure, hcr, hb2, hperm, htool]
      · rw [Bool.not_eq_true] at hperm
        constructor <;> simp [replan_on_failure, hcr, hb2, hperm]
  · intro htool hsudo
    have hb2 : (strContains (strLower err) "not found"
        && decide (failed.tool = "file_read")) = false := by
      simp [htool]
    by_cases hperm : strContains (strLower err) "permission denied" = true
    · simp [replan_on_failure, hcr, hb2, hperm, htool, hsudo]
    · rw [Bool.not_eq_true] at hperm
      simp [replan_on_failure, hcr, hb2, hperm]

/-- Claim C9 witness input: an exhausted shell step whose command is
not yet escalated. -/
def c9StepA : PlanStep :=
  { id := "step_1"
    tool := "shell"
    params := [("command", "cp a b")]
    description := "Copy"
    retry_count := 2 }

/-- Claim C9 witness input: the one-step plan around c9StepA. -/
def c9PlanA : ExecutionPlan := { task := "t", steps := [c9StepA] }

/-- Claim C9 witness input: an exhausted non-shell step. -/
def c9StepB : PlanStep :=
  { id := "step_1"
    tool := "search"
    params := [("pattern", "x")]
    description := "Search"
    retry_count := 2 }

/-- Claim C9 witness input: the one-step plan around c9StepB. -/
def c9PlanB : ExecutionPlan := { task := "t", steps := [c9StepB] }

/-- Claim C9 witness input: an exhausted shell step whose command is
already escalated. -/
def c9StepC : PlanStep :=
  { id := "step_1"
    tool := "shell"
    params := [("command", "sudo cp a b")]
    description := "Copy with sudo"
    retry_count := 2 }

/-- Claim C9 witness input: the one-step plan around c9StepC. -/
def c9PlanC : ExecutionPlan := { task := "t", steps := [c9StepC] }

/-- Witness for claim C9 at three concrete exhausted steps: a shell
step gets one escalation, a non-shell step gets none, and an
already-escalated shell step gets none. -/
theorem c9_witness :
    (replan_on_failure c9PlanA c9StepA "Permission denied").2
        = some ("step_" ++ toString (c9PlanA.steps.length + 1))
    ∧ (replan_on_failure c9PlanB c9StepB "Permission denied").2 = none
    ∧ replan_on_failure c9PlanC c9StepC "Permission denied" = (c9PlanC, none) := by
  refine ⟨?_, ?_, ?_⟩
  · obtain ⟨ns, h1, h2, h3, h4, h5, h6, h7⟩ :=
      (c9_escalation c9PlanA c9StepA "Permission denied" (by decide)).1
        (by decide) (by decide) (by decide)
    rw [h2, h3]
  · have h := (c9_escalation c9PlanB c9StepB "Permission denied" (by decide)).2.1 (by decide)
    rcases h with ⟨h1, h2⟩ | ⟨ns, hns, htool⟩
    · exact h2
    · exfalso
      have hL : (replan_on_failure c9PlanB c9StepB "Permission denied").1.steps
          = c9PlanB.steps := by decide
      rw [hL] at hns
      simp at hns
  · exact (c9_escalation c9PlanC c9StepC "Permission denied" (by decide)).2.2
      (by decide) (by decide)

/-- Claim C5: code containing any configured denylist marker makes
sandboxExecute return an error result with empty stdout, zero
recorded execution time and a diagnostic naming a blocked marker,
while performing no effect: no scratch directory, no script write, no
spawned process. -/
theorem c5_denylist_blocks (cfg : SandboxConfig) (code : String) (w : WriteOutcome)
    (r : RunOutcome) (parse : String → Option ParsedOutput)
    (h : ∃ b ∈ cfg.blocked_imports, strContains code b = true) :
    (sandboxExecute cfg code w r parse).2 = []
    ∧ (sandboxExecute cfg code w r parse).1.status = SandboxStatus.error
    ∧ (sandboxExecute cfg code w r parse).1.stdout = ""
    ∧ (sandboxExecute cfg code w r parse).1.execution_time = 0
    ∧ ∃ b ∈ cfg.blocked_imports, strContains code b = true
        ∧ (sandboxExecute cfg code w r parse).1.stderr = "Blocked import detected: " ++ b := by
  obtain ⟨b, hb, hp⟩ := h
  obtain ⟨c, hc⟩ := exists_find?_some (fun x => strContains code x) hb hp
  have hchk : check_imports cfg code = some ("Blocked import detected: " ++ c) := by
    rw [check_imports, hc]
  have hcmem : c ∈ cfg.blocked_imports := List.mem_of_find?_eq_some hc
  have hcp : strContains code c = true := List.find?_some hc
  refine ⟨?_, ?_, ?_, ?_, ⟨c, hcmem, hcp, ?_⟩⟩ <;> simp [sandboxExecute, hchk]

/-- The default sandbox configuration. -/
def c5Config : SandboxConfig := {}

/-- Witness for claim C5 at the default configuration and a concrete
denylisted code fragment. -/
theorem c5_witness :
    (sandboxExecute c5Config "import subprocess" WriteOutcome.ok
        (RunOutcome.finished 0 "" "" 0) (fun _ => none)).2 = []
    ∧ (sandboxExecute c5Config "import subprocess" WriteOutcome.ok
        (RunOutcome.finished 0 "" "" 0) (fun _ => none)).1.status = SandboxStatus.error
    ∧ (sandboxExecute c5Config "import subprocess" WriteOutcome.ok
        (RunOutcome.finished 0 "" "" 0) (fun _ => none)).1.stdout = ""
    ∧ (sandboxExecute c5Config "import subprocess" WriteOutcome.ok
        (RunOutcome.finished 0 "" "" 0) (fun _ => none)).1.execution_time = 0 := by
  obtain ⟨h1, h2, h3, h4, h5⟩ :=
    c5_denylist_blocks c5Config "import subprocess" WriteOutcome.ok
      (RunOutcome.finished 0 "" "" 0) (fun _ => none)
      ⟨"subprocess", by decide, by decide⟩
  exact ⟨h1, h2, h3, h4⟩

/-- Claim C6: when the spawned process exceeds the wall-clock
timeout, sandboxExecute returns a timeout result with empty stdout, a
descriptive stderr message, and execution_time equal to the
configured timeout_seconds, discarding the partial output of the
killed process. -/
theorem c6_timeout_result (cfg : SandboxConfig) (code : String)
    (po pe : String) (parse : String → Option ParsedOutput)
    (h : check_imports cfg code = none) :
    sandboxExecute cfg code WriteOutcome.ok (RunOutcome.timedOut po pe) parse
      = ({ status := SandboxStatus.timeout, stdout := "",
           stderr := "Execution timed out after " ++ toString cfg.timeout_seconds ++ "s",
           execution_time := (cfg.timeout_seconds : ℚ) },
         [SbEffect.setupDir, SbEffect.wroteScript, SbEffect.spawnedProcess]) := by
  simp [sandboxExecute, h]

/-- Witness for claim C6 at the default configuration and a concrete
timed-out run with non-empty partial output. -/
theorem c6_witness :
    sandboxExecute c5Config "print(42)" WriteOutcome.ok
        (RunOutcome.timedOut "partial out" "partial err") (fun _ => none)
      = ({ status := SandboxStatus.timeout, stdout := "",
           stderr := "Execution timed out after " ++ toString (30 : Nat) ++ "s",
           execution_time := ((30 : Nat) : ℚ) },
         [SbEffect.setupDir, SbEffect.wroteScript, SbEffect.spawnedProcess]) :=
  c6_timeout_result c5Config "print(42)" "partial out" "partial err" (fun _ => none)
    (by decide)

/-- Claim C7: the execution result's success flag holds exactly when
every step of the final plan is completed, and when success fails and
a first failed step exists in plan order, the top-level error equals
that step's error message. -/
theorem c7_success_and_first_error
    (dispatch : String → List (String × String) → ToolResult)
    (ms : Nat) (plan : ExecutionPlan) :
    ((runPlanLoop dispatch ms plan).success = true ↔
      ∀ s ∈ (runPlanLoop dispatch ms plan).finalPlan.steps,
        s.status = StepStatus.completed)
    ∧ ∀ (l₁ : List PlanStep) (s : PlanStep) (l₂ : List PlanStep),
        (runPlanLoop dispatch ms plan).success = false →
        (runPlanLoop dispatch ms plan).finalPlan.steps = l₁ ++ s :: l₂ →
        (∀ t ∈ l₁, t.status ≠ StepStatus.failed) →
        s.status = StepStatus.failed →
        (runPlanLoop dispatch ms plan).error = s.error := by
  have h1 : (runPlanLoop dispatch ms plan).success
      = overallSuccess (runPlanLoop dispatch ms plan).finalPlan := rfl
  have h2 : (runPlanLoop dispatch ms plan).error
      = if overallSuccess (runPlanLoop dispatch ms plan).finalPlan then none
        else firstFailureError (runPlanLoop dispatch ms plan).finalPlan := rfl
  constructor
  · rw [h1, overallSuccess, List.all_eq_true]
    simp only [decide_eq_true_eq]
  · intro l₁ s l₂ hsucc hsteps hl hs
    rw [h1] at hsucc
    have hfind : (runPlanLoop dispatch ms plan).finalPlan.steps.find?
        (fun u => decide (u.status = StepStatus.failed)) = some s := by
      rw [hsteps]
      exact find?_first _ l₁ s l₂ (fun t ht => by simp [hl t ht]) (by simp [hs])
    rw [h2, if_neg (by simp [hsucc]), firstFailureError, hfind]

/-- A dispatch oracle whose every call fails with the same error. -/
def dispatchBoom : String → List (String × String) → ToolResult :=
  fun _ _ => { status := ToolStatus.error, output := "", error := some "boom" }

/-- The terminal state of the single step of the plan for the task
used in the claim C7 witness, after its retries are exhausted. -/
def c7FailedStep : PlanStep :=
  { id := "step_1"
    tool := "shell"
    params := [("command", "do thing")]
    description := "Execute: do thing"
    depends_on := []
    status := StepStatus.failed
    result := none
    error := some "boom"
    retry_count := 2
    max_retries := 2 }

/-- Witness for claim C7 on a concrete always-failing run: the
surfaced task-level error is the first failed step's message. -/
theorem c7_witness :
    (runPlanLoop dispatchBoom 50 (plannerPlan "do thing" [])).error = some "boom" := by
  have h := (c7_success_and_first_error dispatchBoom 50 (plannerPlan "do thing" [])).2
    [] c7FailedStep [] (by decide) (by decide) (by simp) (by decide)
  exact h

end AgenticExec
